import Mathlib

/-!
Verification model of the query-processing engine of the audio-catalog
assistant (src/src/rag/router.py, retrieval.py, generator.py, engine.py and
src/src/logic/calculator.py).

Python text is modelled as `List Char` (`Str`) at the character-processing
level and `String` at the API level.  Python `re` pattern matching is
modelled by a small executable regular-expression engine covering exactly
the constructs the source patterns use (literals, `.`, `\d`, `\w`, `\s`,
character classes and ranges, alternation, `*`, `+`, `?`, `\b`), with
`re.IGNORECASE` semantics (every router call site passes that flag).
Numbers are modelled with `Int`/`ℚ`; the source arithmetic on the inputs
exercised here is exact in rationals.
-/

abbrev Str := List Char

def lowerS (s : Str) : Str := s.map Char.toLower

def upperS (s : Str) : Str := s.map Char.toUpper

/-- Python whitespace set used by `str.strip` and `\s`. -/
def isPySpace (c : Char) : Bool :=
  c = ' ' || c = '\t' || c = '\n' || c = '\r' || c = '\x0b' || c = '\x0c'

/-- Python `str.strip()`. -/
def pyStrip (s : Str) : Str :=
  ((s.dropWhile isPySpace).reverse.dropWhile isPySpace).reverse

def pyStripS (s : String) : String := String.mk (pyStrip s.data)

def lowerStr (s : String) : String := String.mk (lowerS s.data)

def upperStr (s : String) : String := String.mk (upperS s.data)

/-- Python regex `\w` (ASCII range, which covers the catalog vocabulary). -/
def isWordChar (c : Char) : Bool := c.isAlpha || c.isDigit || c = '_'

def isWordO : Option Char → Bool
  | none => false
  | some c => isWordChar c

/-- Does `p` occur as a leading run of `s`? -/
def leadsList (p s : Str) : Bool :=
  match p, s with
  | [], _ => true
  | _ :: _, [] => false
  | a :: ps, b :: ss => a = b && leadsList ps ss

/-- Case-insensitive variant of `leadsList`. -/
def leadsListCI (p s : Str) : Bool :=
  match p, s with
  | [], _ => true
  | _ :: _, [] => false
  | a :: ps, b :: ss => a.toLower = b.toLower && leadsList (lowerS ps) (lowerS ss)

/-- Python `needle in hay` substring test. -/
def strIn (needle hay : Str) : Bool :=
  leadsList needle hay ||
    match hay with
    | [] => false
    | _ :: t => strIn needle t

def containsSub (hay needle : String) : Bool := strIn needle.data hay.data

/-- Regular expressions, restricted to the constructs the source uses. -/
inductive RE where
  | eps
  | lit (c : Char)
  | anyc                       -- `.` (anything but a newline)
  | digit                      -- `\d`
  | wordc                      -- `\w`
  | space                      -- `\s`
  | cls (cs : List Char)       -- `[abc]`
  | rnge (lo hi : Char)        -- `[A-Z]`
  | seq (a b : RE)
  | alt (a b : RE)
  | star (a : RE)
  | wb                         -- `\b`
deriving Repr

/-- Single-character atoms, with `re.IGNORECASE` semantics. -/
def atomMatch : RE → Char → Bool
  | .lit c, d => c.toLower = d.toLower
  | .anyc, d => d ≠ '\n'
  | .digit, d => d.isDigit
  | .wordc, d => isWordChar d
  | .space, d => isPySpace d
  | .cls cs, d => cs.any (fun c => c.toLower = d.toLower)
  | .rnge lo hi, d =>
      (lo ≤ d && d ≤ hi) || (lo ≤ d.toUpper && d.toUpper ≤ hi) ||
        (lo ≤ d.toLower && d.toLower ≤ hi)
  | _, _ => false

def reSize : RE → Nat
  | .seq a b => reSize a + reSize b + 1
  | .alt a b => reSize a + reSize b + 1
  | .star a => reSize a + 1
  | _ => 1

/--
Backtracking matcher in continuation-passing style, exploring alternatives
in the same order as Python `re` (greedy `*`, left alternative first), so a
returned value is the first match Python would find.  `prev` is the
character just before the current position (for `\b`).  The fuel bounds the
depth of one exploration path; `fuelFor` below is sufficient for every
pattern of the source, whose starred sub-expressions always consume a
character.
-/
def reM {σ : Type} : Nat → RE → Option Char → Str →
    (Option Char → Str → Option σ) → Option σ
  | 0, _, _, _, _ => none
  | n + 1, re, prev, s, k =>
    match re with
    | .eps => k prev s
    | .wb => if isWordO prev != isWordO s.head? then k prev s else none
    | .seq a b => reM n a prev s (fun p r => reM n b p r k)
    | .alt a b => (reM n a prev s k).orElse (fun _ => reM n b prev s k)
    | .star a =>
        (reM n a prev s (fun p r => reM n (.star a) p r k)).orElse
          (fun _ => k prev s)
    | atom =>
        match s with
        | [] => none
        | c :: cs => if atomMatch atom c then k (some c) cs else none

def fuelFor (re : RE) (s : Str) : Nat := (reSize re + 2) * (s.length + 2)

/-- Does `re` match a leading run of `s` (with `prev` as left context)? -/
def reHere (re : RE) (prev : Option Char) (s : Str) : Bool :=
  (reM (fuelFor re s) re prev s (fun p r => some (p, r))).isSome

/-- Python `re.search`: does `re` match anywhere in `s`? -/
def reSearchFrom (re : RE) (prev : Option Char) (s : Str) : Bool :=
  reHere re prev s ||
    match s with
    | [] => false
    | c :: cs => reSearchFrom re (some c) cs

def reSearch (re : RE) (s : Str) : Bool := reSearchFrom re none s

def matchesAny (ps : List RE) (s : Str) : Bool := ps.any (fun p => reSearch p s)

/-- Concatenation (a `seq`-fold) of a pattern list. -/
def reCat (l : List RE) : RE := l.foldr RE.seq RE.eps

/-- A literal string as a pattern. -/
def reStr (s : String) : RE := reCat (s.data.map RE.lit)

def reOpt (a : RE) : RE := .alt a .eps

def rePlus (a : RE) : RE := .seq a (.star a)

def reAlts (l : List RE) : RE := l.foldr RE.alt (.cls [])

/-- Model of `\b pat \b`, as the guardrail checks build it. -/
def wbWrap (r : RE) : RE := .seq .wb (.seq r .wb)

example : reSearch (reStr "jbl") "is jbl ok".data = true := by decide
example : reSearch (wbWrap (reStr "jbl")) "is jbl ok".data = true := by decide
example : reSearch (wbWrap (reStr "jbl")) "jblx".data = false := by decide
example : reSearch (reCat [rePlus .digit, .star .space, .alt (.lit '×') (.lit 'x'),
    .star .space, rePlus .digit, .star .space, .lit 'W']) "use 4x30w today".data = true := by
  decide

/-! ## Data model (src/src/rag/retrieval.py, generator.py, router.py) -/

/-- Heterogeneous Python values stored in a product `specs` mapping. -/
inductive PyVal where
  | pstr (s : String)
  | pint (n : Int)
  | prat (q : ℚ)
  | pbool (b : Bool)
  | pnone
deriving DecidableEq, Repr

/-- Python truthiness (`if specs[key]:`). -/
def pvTruthy : PyVal → Bool
  | .pstr s => s ≠ ""
  | .pint n => n ≠ 0
  | .prat q => q ≠ 0
  | .pbool b => b
  | .pnone => false

/-- A `specs` dict: association list, first binding wins on lookup. -/
abbrev Specs := List (String × PyVal)

/-- One row of the external `products` table, as the retriever reads it. -/
structure Product where
  model_name : String
  category : Option String
  series : Option String
  specs : Specs
  ai_summary : Option String
  pdf_source : Option String
  embedding : Option (List ℚ)
  watts_int : Option Int
  voltage_type : Option String
deriving DecidableEq, Repr

/-- Model of `RetrievalResult` (retrieval.py). -/
structure RetrievalResult where
  model_name : String
  category : Option String
  series : Option String
  specs : Specs
  ai_summary : Option String
  similarity_score : ℚ := 0
  pdf_source : Option String
deriving DecidableEq, Repr

/-- Model of `Citation` (generator.py). -/
structure Citation where
  model_name : String
  field : String
  value : PyVal
  pdf_source : Option String
deriving DecidableEq, Repr

/-- Model of `GeneratedAnswer` (generator.py), with its Python dataclass defaults. -/
structure GeneratedAnswer where
  answer : String
  citations : List Citation := []
  confidence : ℚ := 0
  query_type : String := ""
  products_used : List String := []
deriving DecidableEq, Repr

/-- The filter dict built by `extract_filters` (router.py). -/
structure Filters where
  min_watts : Option Int := none
  max_watts : Option Int := none
  voltage_type : Option String := none
  category : Option String := none
  series : Option String := none
deriving DecidableEq, Repr

/-- The params dict built by `extract_calculation_params` (router.py). -/
structure CalculationParams where
  speakers : Option (List Int) := none
  transformer_watts : Option Int := none
  recommend_transformer_for : Option Int := none
  impedances : Option (List ℚ) := none
  connection : Option String := none
deriving DecidableEq, Repr

/-- Python `not params` for the extracted dict. -/
def CalculationParams.isEmpty (p : CalculationParams) : Bool :=
  p.speakers.isNone && p.transformer_watts.isNone &&
    p.recommend_transformer_for.isNone && p.impedances.isNone &&
    p.connection.isNone

/-- An HTTP completion outcome from the Ollama port. -/
structure LlmResp where
  status : Nat
  response : String
deriving DecidableEq, Repr

/-- Observable outbound operations of one request (for the blocked-path and
empty-query claims: which external collaborators a request touches). -/
inductive Effect where
  | llmCall        -- completion port (classification fallback or generation)
  | dbCall         -- catalog store query
  | embedCall      -- embedding port
  | calcCall       -- deterministic calculator invocation
deriving DecidableEq, Repr

/-- The injected external collaborators: catalog rows, the embedding port
(`none` = failure/timeout), the completion port (`none` = transport error),
the vector-index distance operator of the external store (pgvector cosine
distance, not part of this repository), and the router `use_llm` flag. -/
structure Env where
  catalog : List Product
  embed : String → Option (List ℚ)
  llm : String → Option LlmResp
  cosDist : List ℚ → List ℚ → ℚ
  useLlm : Bool := true

/-! ## Query router (src/src/rag/router.py) -/

/-- Model of `QueryType` (router.py). -/
inductive QueryType where
  | DIRECT_LOOKUP
  | SEMANTIC_SEARCH
  | CALCULATION
  | PURCHASE_INTENT
  | DOMAIN_VIOLATION
  | UNKNOWN
deriving DecidableEq, Repr

/-- Model of `DIRECT_LOOKUP_PATTERNS`. -/
def DIRECT_LOOKUP_PATTERNS : List RE :=
  [ reCat [reStr "what", .alt (reStr "\x27s") (reStr " is"), reStr " the ",
      .star .anyc, reStr " of ", rePlus .wordc, reOpt (.cls ['-', '/']), .star .wordc],
    reCat [reAlts [reStr "get", reStr "show", reStr "tell me"], reStr " ",
      reOpt (reStr "the "), .star .anyc, reStr " ", reAlts [reStr "for", reStr "of"],
      reStr " ", rePlus .wordc, reOpt (.cls ['-', '/']), .star .wordc],
    reCat [rePlus .wordc, .cls ['-', '/'], rePlus .wordc, reStr " ",
      reAlts [reStr "specs", reStr "specifications", reStr "details"]],
    reCat [reStr "specs ", reAlts [reStr "for", reStr "of"], reStr " ",
      rePlus .wordc, reOpt (.cls ['-', '/']), .star .wordc],
    reCat [rePlus .wordc, reStr " ",
      reAlts [reStr "power", reStr "specs", reStr "frequency", reStr "impedance",
        reStr "sensitivity", reStr "coverage", reStr "weight"]] ]

/-- Model of `CALCULATION_PATTERNS`. -/
def CALCULATION_PATTERNS : List RE :=
  [ reStr "can I connect",
    reCat [reStr "how many ", .star .anyc, reStr " can I"],
    reCat [reStr "will ", .star .anyc, reStr " work with"],
    reStr "calculate",
    reCat [reStr "what", .alt (reStr "\x27s") (reStr " is"), reStr " the total"],
    reCat [rePlus .digit, .star .space, .alt (.lit '×') (.lit 'x'), .star .space,
      rePlus .digit, .star .space, .lit 'W'],
    reCat [rePlus .digit, .star .space, reStr "speaker", reOpt (.lit 's'),
      .star .space, reAlts [reStr "at", reStr "@"], .star .space, rePlus .digit,
      .star .space, .lit 'W'],
    reStr "transformer",
    reCat [reStr "impedance", .star .anyc, reAlts [reStr "series", reStr "parallel"]] ]

/-- Model of `SEMANTIC_SEARCH_PATTERNS`. -/
def SEMANTIC_SEARCH_PATTERNS : List RE :=
  [ reStr "find",
    reStr "search",
    reStr "recommend",
    reStr "suggest",
    reStr "looking for",
    reCat [reStr "best ", .star .anyc, reStr " for"],
    reCat [reStr "which ", .star .anyc, reStr " should"],
    reStr "suitable for",
    reStr "good for" ]

/-- Model of `PURCHASE_INTENT_PATTERNS` (checked wrapped in word boundaries). -/
def PURCHASE_INTENT_PATTERNS : List RE :=
  [ reStr "price", reStr "cost", reStr "how much", reStr "buy", reStr "purchase",
    reStr "stock", reStr "availability", reStr "where to get", reStr "ordering",
    reStr "quote", reStr "discount", reStr "deal", reStr "sale" ]

/-- Model of `DOMAIN_VIOLATION_PATTERNS` (competitor names, word-bounded). -/
def DOMAIN_VIOLATION_PATTERNS : List RE :=
  [ reStr "sonos", reStr "jbl", reStr "yamaha", reStr "qsc", reStr "crestron",
    reStr "extron", reStr "biamp", reStr "crown",
    reCat [reStr "lab", .anyc, reStr "gruppen"] ]

/-- Model of `QueryRouter._check_purchase_intent`. -/
def checkPurchaseIntent (query : String) : Bool :=
  PURCHASE_INTENT_PATTERNS.any (fun p => reSearch (wbWrap p) (lowerStr query).data)

/-- Model of `QueryRouter._check_domain_violation`. -/
def checkDomainViolation (query : String) : Bool :=
  DOMAIN_VIOLATION_PATTERNS.any (fun p => reSearch (wbWrap p) (lowerStr query).data)

/-- Model of `QueryRouter._rule_based_classify`: calculation, then lookup, then
search patterns; first matching group wins. -/
def ruleBasedClassify (query : String) : Option QueryType :=
  let ql := (lowerStr query).data
  if matchesAny CALCULATION_PATTERNS ql then some .CALCULATION
  else if matchesAny DIRECT_LOOKUP_PATTERNS ql then some .DIRECT_LOOKUP
  else if matchesAny SEMANTIC_SEARCH_PATTERNS ql then some .SEMANTIC_SEARCH
  else none

/-- Model of `CLASSIFICATION_PROMPT.format(query=query)`. -/
def classificationPrompt (query : String) : String :=
  "You are classifying user queries about Bose professional audio products.\n\n" ++
  "Classify this query into exactly one category:\n" ++
  "- DIRECT_LOOKUP: Asking for specific specs of a known product (e.g., \"What\x27s the power of AM10/60?\")\n" ++
  "- SEMANTIC_SEARCH: Looking for products matching criteria (e.g., \"Find 70V speakers for conference rooms\")\n" ++
  "- CALCULATION: Math/electrical calculations (e.g., \"Can I connect 4x30W speakers to 150W transformer?\")\n\n" ++
  "Query: " ++ query ++ "\n\n" ++
  "Respond with ONLY one word: DIRECT_LOOKUP, SEMANTIC_SEARCH, or CALCULATION"

/-- Model of `QueryRouter._llm_classify`.  The state component records that the lazy
HTTP client now exists (the only mutation the router performs); the result
of the completion port is a pure function of the prompt in a fixed
environment.  A `none` port outcome models a raised transport exception. -/
def llmClassify (env : Env) (_st : Bool) (query : String) : QueryType × Bool :=
  match env.llm (classificationPrompt query) with
  | none => (.SEMANTIC_SEARCH, true)
  | some r =>
    if r.status ≠ 200 then (.SEMANTIC_SEARCH, true)
    else
      let res := upperStr (pyStripS r.response)
      if containsSub res "DIRECT" || containsSub res "LOOKUP" then
        (.DIRECT_LOOKUP, true)
      else if containsSub res "CALCULATION" || containsSub res "CALC" then
        (.CALCULATION, true)
      else if containsSub res "SEMANTIC" || containsSub res "SEARCH" then
        (.SEMANTIC_SEARCH, true)
      else (.SEMANTIC_SEARCH, true)

structure ClassifyResult where
  intent : QueryType
  st : Bool
  fx : List Effect
deriving DecidableEq, Repr

/-- Model of `QueryRouter.classify`: empty guard, then the guardrail layer (purchase
intent, domain violation), then the rule layer, then the LLM fallback. -/
def classify (env : Env) (st : Bool) (query : String) : ClassifyResult :=
  if (pyStripS query).isEmpty then ⟨.UNKNOWN, st, []⟩
  else
    let q := pyStripS query
    if checkPurchaseIntent q then ⟨.PURCHASE_INTENT, st, []⟩
    else if checkDomainViolation q then ⟨.DOMAIN_VIOLATION, st, []⟩
    else
      match ruleBasedClassify q with
      | some t => ⟨t, st, []⟩
      | none =>
        if env.useLlm then
          let r := llmClassify env st q
          ⟨r.1, r.2, [.llmCall]⟩
        else ⟨.SEMANTIC_SEARCH, st, []⟩

/-- Group bodies of the `extract_model_name` patterns (each source pattern
is `\b(body)\b`; the captured group is the whole body). -/
def MODEL_NAME_PATTERNS : List RE :=
  [ reCat [reStr "AM", rePlus .digit, .lit '/', rePlus .digit,
      reOpt (reCat [.lit '/', rePlus .digit])],
    reCat [reStr "DM", rePlus .digit, .star (.rnge 'A' 'Z'),
      reOpt (reCat [.lit '-', rePlus (.rnge 'A' 'Z')])],
    reCat [reStr "FS", rePlus .digit, .star (.rnge 'A' 'Z')],
    reCat [reStr "EM", rePlus .digit, reOpt (reStr "-LP")],
    reCat [reStr "IZA", .star .space, rePlus .digit, reOpt (.lit '-'), .star .wordc],
    reCat [reStr "PS", reOpt (.cls ['X']), .digit, .digit, .digit, reOpt .digit,
      .star (.rnge 'A' 'Z')],
    reCat [reStr "P", .digit, .digit, .digit, .digit, reOpt (.rnge 'A' 'Z')],
    reCat [reStr "CC-", rePlus .digit, reOpt (.lit 'D')],
    reCat [.digit, .digit, .digit, reOpt .digit, .lit 'B', .cls ['L', 'H']],
    reCat [reStr "VB", reOpt (.cls ['-']), reOpt (.cls ['S', '1'])] ]

/-- If `\b re \b` matches at the current position, the consumed substring
(the capture group of the model-name patterns), else `none`. -/
def wbHereRest (re : RE) (prev : Option Char) (s : Str) : Option Str :=
  if isWordO prev != isWordO s.head? then
    match reM (fuelFor re s) re prev s
        (fun p r => if isWordO p != isWordO r.head? then some (p, r) else none) with
    | some (_, rest) => some (s.take (s.length - rest.length))
    | none => none
  else none

/-- Leftmost match of `\b re \b` in `s`, returning the captured substring. -/
def wbExtractFrom (re : RE) (prev : Option Char) (s : Str) : Option Str :=
  match wbHereRest re prev s with
  | some t => some t
  | none =>
    match s with
    | [] => none
    | c :: cs => wbExtractFrom re (some c) cs

/-- Model of `QueryRouter.extract_model_name`: first pattern with a match wins; the
captured text is upper-cased. -/
def extractModelName (query : String) : Option String :=
  (MODEL_NAME_PATTERNS.findSome? (fun p => wbExtractFrom p none query.data)).map
    (fun m => upperStr (String.mk m))

/-- Maximal leading digit run and the remainder. -/
def digitSpan (s : Str) : Str × Str := (s.takeWhile Char.isDigit, s.dropWhile Char.isDigit)

def digitsToNat (ds : Str) : Nat := ds.foldl (fun a c => a * 10 + (c.toNat - 48)) 0

/-- At the current position: `(\d+)\s*[w]` (case-insensitive unit char),
returning the captured number. -/
def numThenW (s : Str) : Option Int :=
  let (ds, rest) := digitSpan s
  if ds.isEmpty then none
  else
    match (rest.dropWhile isPySpace).head? with
    | some c => if c.toLower = 'w' then some (digitsToNat ds : Int) else none
    | none => none

/-- Model of `re.search` for `(?:alt1|alt2|...)\s*(\d+)\s*W`, returning the captured
number of the leftmost match. -/
def findNumAfterAlts (alts : List String) (s : Str) : Option Int :=
  match alts.findSome? (fun a =>
      if leadsListCI a.data s then numThenW ((s.drop a.data.length).dropWhile isPySpace)
      else none) with
  | some n => some n
  | none =>
    match s with
    | [] => none
    | _ :: t => findNumAfterAlts alts t

/-- Model of `QueryRouter.extract_filters`. -/
def extractFilters (query : String) : Filters :=
  let ql := lowerStr query
  let minW := findNumAfterAlts ["over", "above", "more than", ">"] query.data
  let maxW := findNumAfterAlts ["under", "below", "less than", "<"] query.data
  let voltage :=
    if containsSub ql "70v" && containsSub ql "100v" then some "70V/100V"
    else if containsSub ql "70v" then some "70V"
    else if containsSub ql "100v" then some "100V"
    else if containsSub ql "low-z" || containsSub ql "low z" then some "Low-Z"
    else none
  let category :=
    if containsSub ql "speaker" || containsSub ql "loudspeaker" then some "loudspeaker"
    else if containsSub ql "amp" || containsSub ql "amplifier" then some "amplifier"
    else if containsSub ql "controller" then some "controller"
    else if containsSub ql "sub" then some "subwoofer"
    else none
  let series :=
    if containsSub ql "designmax" then some "DesignMax"
    else if containsSub ql "freespace" then some "FreeSpace"
    else if containsSub ql "arenamatch" then some "ArenaMatch"
    else if containsSub ql "edgemax" then some "EdgeMax"
    else if containsSub ql "powerspace" then some "PowerSpace"
    else none
  ⟨minW, maxW, voltage, category, series⟩

/-- Model of `\s*(?:×|x|speakers?\s*(?:at|@)?)\s*` — the middle of the speaker
wattage pattern. -/
def speakerMid : RE :=
  reCat [.star .space,
    reAlts [.lit '×', .lit 'x',
      reCat [reStr "speaker", reOpt (.lit 's'), .star .space,
        reOpt (reAlts [reStr "at", .lit '@'])]],
    .star .space]

/-- At the current position: `(\d+)\s*(?:×|x|speakers?\s*(?:at|@)?)\s*(\d+)\s*W`. -/
def speakerHereScan (s : Str) : Option (Nat × Nat) :=
  let (ds, rest) := digitSpan s
  if ds.isEmpty then none
  else
    reM (fuelFor speakerMid rest) speakerMid none rest (fun _ r =>
      let (ws, r2) := digitSpan r
      if ws.isEmpty then none
      else
        match (r2.dropWhile isPySpace).head? with
        | some c => if c.toLower = 'w' then some (digitsToNat ds, digitsToNat ws) else none
        | none => none)

/-- Leftmost `(\d+)\s*(?:×|x|speakers?\s*(?:at|@)?)\s*(\d+)\s*W` (count, watts). -/
def speakerScan (s : Str) : Option (Nat × Nat) :=
    match speakerHereScan s with
    | some r => some r
    | none =>
      match s with
      | [] => none
      | _ :: t => speakerScan t

/-- At the current position: `(\d+)\s*W\s*(?:transformer|amp|amplifier)`. -/
def transformerHereScan (s : Str) : Option Int :=
  let (ds, rest) := digitSpan s
  if ds.isEmpty then none
  else
    match (rest.dropWhile isPySpace) with
    | [] => none
    | c :: r2 =>
      if c.toLower = 'w' then
        let r3 := r2.dropWhile isPySpace
        if leadsListCI "transformer".data r3 || leadsListCI "amp".data r3 ||
            leadsListCI "amplifier".data r3 then
          some (digitsToNat ds : Int)
        else none
      else none

/-- Leftmost `(\d+)\s*W\s*(?:transformer|amp|amplifier)`. -/
def transformerScan (s : Str) : Option Int :=
    match transformerHereScan s with
    | some r => some r
    | none =>
      match s with
      | [] => none
      | _ :: t => transformerScan t

/-- Leftmost `(\d+)\s*W`. -/
def anyWattScan (s : Str) : Option Int :=
    match numThenW s with
    | some r => some r
    | none =>
      match s with
      | [] => none
      | _ :: t => anyWattScan t

/-- At the current position: `(\d+)\s*(?:×|x)\s*(\d+)\s*(?:Ω|ohm)`. -/
def impMultHereScan (s : Str) : Option (Nat × Nat) :=
  let (ds, rest) := digitSpan s
  if ds.isEmpty then none
  else
    match (rest.dropWhile isPySpace) with
    | [] => none
    | c :: r2 =>
      if c.toLower = 'x' || c = '×' then
        let (zs, r3) := digitSpan (r2.dropWhile isPySpace)
        if zs.isEmpty then none
        else
          let r4 := r3.dropWhile isPySpace
          if leadsListCI "Ω".data r4 || leadsListCI "ohm".data r4 then
            some (digitsToNat ds, digitsToNat zs)
          else none
      else none

/-- Leftmost `(\d+)\s*(?:×|x)\s*(\d+)\s*(?:Ω|ohm)` (count, ohms). -/
def impMultScan (s : Str) : Option (Nat × Nat) :=
    match impMultHereScan s with
    | some r => some r
    | none =>
      match s with
      | [] => none
      | _ :: t => impMultScan t

/-- At the current position: `(\d+)\s*(?:Ω|ohm)`, with the remainder after
the match (for non-overlapping `findall`). -/
def ohmsAt (s : Str) : Option (Nat × Str) :=
  let (ds, rest) := digitSpan s
  if ds.isEmpty then none
  else
    let r2 := rest.dropWhile isPySpace
    if leadsListCI "Ω".data r2 then some (digitsToNat ds, r2.drop 1)
    else if leadsListCI "ohm".data r2 then some (digitsToNat ds, r2.drop 3)
    else none

/-- Model of `re.findall` over `(\d+)\s*(?:Ω|ohm)`: leftmost, non-overlapping.  The
fuel is the string length (every step consumes at least one character). -/
def findAllOhms : Nat → Str → List Nat
  | 0, _ => []
  | n + 1, s =>
    match ohmsAt s with
    | some (v, rest) => v :: findAllOhms n rest
    | none =>
      match s with
      | [] => []
      | _ :: t => findAllOhms n t

/-- Model of `QueryRouter.extract_calculation_params`. -/
def extractCalculationParams (query : String) : CalculationParams :=
  let q := query.data
  let ql := lowerStr query
  let speakers := (speakerScan q).map (fun cw => List.replicate cw.1 (cw.2 : Int))
  let tw := transformerScan q
  let recFor :=
    if containsSub ql "transformer" && tw.isNone then anyWattScan q else none
  let imp :=
    match impMultScan q with
    | some cz => some (List.replicate cz.1 (cz.2 : ℚ))
    | none =>
      let l := findAllOhms q.length q
      if l.isEmpty then none else some (l.map (fun n => (n : ℚ)))
  let conn :=
    if containsSub ql "series" then some "series"
    else if containsSub ql "parallel" then some "parallel"
    else none
  ⟨speakers, tw, recFor, imp, conn⟩

example : extractModelName "what is the power of the AM10/60?" = some "AM10/60" := by decide
example : extractCalculationParams "can I connect 4x30W speakers to a 150W transformer?" =
    ⟨some [30, 30, 30, 30], some 150, none, none, none⟩ := by decide
example : extractCalculationParams "impedance of 4 ohm and 8 ohm in parallel" =
    ⟨none, none, none, some [4, 8], some "parallel"⟩ := by decide

/-! ## Deterministic electrical calculator (src/src/logic/calculator.py) -/

/-- Python `int()` truncation toward zero of a rational. -/
def pyTrunc (q : ℚ) : Int := if q < 0 then -(Rat.floor (-q)) else Rat.floor q

/-- Round-half-to-even to an integer (Python `round` / float formatting). -/
def roundHalfEven (q : ℚ) : Int :=
  let f := Rat.floor q
  let r := q - f
  if r < 1 / 2 then f
  else if (1 : ℚ) / 2 < r then f + 1
  else if f % 2 = 0 then f else f + 1

/-- Python `round(q, d)`. -/
def pyRound (q : ℚ) (d : Nat) : ℚ :=
  (roundHalfEven (q * (10 ^ d : ℕ)) : ℚ) / (10 ^ d : ℕ)

/-- Python `"%.df"`-style fixed-point rendering of a rational. -/
def ratFix (q : ℚ) (d : Nat) : String :=
  let r := roundHalfEven (q * (10 ^ d : ℕ))
  let a := r.natAbs
  let ip := a / 10 ^ d
  let fp := a % 10 ^ d
  let fpStr := toString fp
  let pad := String.mk (List.replicate (d - fpStr.length) '0')
  (if r < 0 then "-" else "") ++ toString ip ++ "." ++ pad ++ fpStr

/-- Python `str(z)` for the whole-valued floats this pipeline builds (the
router only produces integral impedances/wattages); non-integral values are
rendered fixed-point, which suffices for every value reachable here. -/
def pyFloatStr (q : ℚ) : String :=
  if q.den = 1 then toString q.num ++ ".0" else ratFix q 2

/-- Model of `STANDARD_TRANSFORMER_SIZES`. -/
def STANDARD_TRANSFORMER_SIZES : List Int :=
  [50, 70, 100, 125, 150, 200, 250, 300, 500, 1000]

/-- Model of `MIN_HEADROOM_PERCENT`. -/
def MIN_HEADROOM_PERCENT : ℚ := 10

/-- Model of `RECOMMENDED_HEADROOM_PERCENT`. -/
def RECOMMENDED_HEADROOM_PERCENT : ℚ := 20

/-- Model of `CompatibilityResult` (calculator.py). -/
structure CompatibilityResult where
  compatible : Bool
  total_load : Int
  capacity : Int
  headroom_percent : ℚ
  message : String
deriving DecidableEq, Repr

/-- Model of `ImpedanceResult` (calculator.py). -/
structure ImpedanceResult where
  total_impedance : ℚ
  connection : String
  speakers : List ℚ
  message : String
deriving DecidableEq, Repr

/-- Model of `ElectricalCalculator.calculate_total_power`. -/
def calculateTotalPower (speakers : List Int) : Int :=
  if speakers.isEmpty then 0 else speakers.sum

/-- Model of `ElectricalCalculator.verify_70v_compatibility`. -/
def verify70vCompatibility (total_watts transformer_watts : Int) : CompatibilityResult :=
  if transformer_watts ≤ 0 then
    ⟨false, total_watts, transformer_watts, 0, "Invalid transformer capacity"⟩
  else
    let compatible := total_watts ≤ transformer_watts
    let headroom := ((transformer_watts - total_watts : ℚ) / (transformer_watts : ℚ)) * 100
    let message :=
      if ¬compatible then
        "INCOMPATIBLE: Load (" ++ toString total_watts ++ "W) exceeds transformer capacity (" ++
          toString transformer_watts ++ "W) by " ++ toString (total_watts - transformer_watts) ++ "W"
      else if headroom < MIN_HEADROOM_PERCENT then
        "WARNING: Low headroom (" ++ ratFix headroom 1 ++ "%). Recommended minimum is " ++
          pyFloatStr MIN_HEADROOM_PERCENT ++ "%"
      else if headroom < RECOMMENDED_HEADROOM_PERCENT then
        "Acceptable: " ++ ratFix headroom 1 ++ "% headroom. Recommended is " ++
          pyFloatStr RECOMMENDED_HEADROOM_PERCENT ++ "%"
      else "Good: " ++ ratFix headroom 1 ++ "% headroom - optimal configuration"
    ⟨compatible, total_watts, transformer_watts, pyRound headroom 1, message⟩

/-- Model of `ElectricalCalculator.calculate_impedance`.  In parallel mode the
source sums the reciprocals of the values that are `> 0` (silently skipping
the rest) and only hits its `ZeroDivisionError` handler when that sum is
empty, i.e. when no value is positive. -/
def calculateImpedance (speakers : List ℚ) (connection : String) : ImpedanceResult :=
  if speakers.isEmpty then ⟨0, connection, [], "No speakers provided"⟩
  else
    let conn := lowerStr connection
    if conn = "series" then
      let total := speakers.sum
      let message := "Series connection: " ++
        String.intercalate " + " (speakers.map pyFloatStr) ++ "Ω = " ++ ratFix total 2 ++ "Ω"
      ⟨pyRound total 2, conn, speakers, message⟩
    else if conn = "parallel" then
      let pos := speakers.filter (fun z => 0 < z)
      if pos.isEmpty then
        ⟨0, conn, speakers, "Error: Cannot have 0Ω speaker in parallel"⟩
      else
        let total := 1 / (pos.map (fun z => 1 / z)).sum
        let message := "Parallel connection: 1/(1/" ++
          String.intercalate " + 1/" (speakers.map pyFloatStr) ++ ")Ω = " ++ ratFix total 2 ++ "Ω"
        ⟨pyRound total 2, conn, speakers, message⟩
    else
      ⟨0, conn, speakers,
        "Error: Connection must be \x27series\x27 or \x27parallel\x27, got \x27" ++ conn ++ "\x27"⟩

/-- The dict returned by `ElectricalCalculator.recommend_transformer`. -/
structure TransformerRec where
  load_watts : Int
  recommended_watts : Int
  headroom_percent : ℚ
  alternatives : List Int
  message : String
deriving DecidableEq, Repr

/-- Model of `ElectricalCalculator.recommend_transformer`.  `min_required` is
`int(total_watts * 1.2)`: the threshold is truncated to an integer.  (For
every wattage this pipeline can produce, Python float `total_watts * 1.2`
truncates to the same integer as exact rational `total_watts * 6/5`.) -/
def minRequiredWatts (total_watts : Int) : Int :=
  pyTrunc ((total_watts : ℚ) * (6 / 5))

def recommendTransformer (total_watts : Int) : TransformerRec :=
  let min_required := minRequiredWatts total_watts
  let recommended :=
    match STANDARD_TRANSFORMER_SIZES.find? (fun s => decide (min_required ≤ s)) with
    | some s => s
    | none => STANDARD_TRANSFORMER_SIZES.getLastD 0
  let alternatives :=
    (STANDARD_TRANSFORMER_SIZES.filter
      (fun s => decide (total_watts ≤ s) && decide (s ≠ recommended))).take 2
  let headroom := ((recommended - total_watts : ℚ) / (recommended : ℚ)) * 100
  ⟨total_watts, recommended, pyRound headroom 1, alternatives,
    "Recommended: " ++ toString recommended ++ "W transformer for " ++ toString total_watts ++
      "W load (" ++ ratFix headroom 1 ++ "% headroom)"⟩

/-- The dict returned by `ElectricalCalculator.max_speakers_for_transformer`
on its normal path. -/
structure MaxSpeakersResult where
  max_speakers : Int
  speaker_watts : Int
  total_load : Int
  transformer_watts : Int
  actual_headroom_percent : ℚ
  message : String
deriving DecidableEq, Repr

/-- Outcome of `max_speakers_for_transformer`: the normal dict, the tagged
error dict (zero `max_speakers` plus an `error` message), or an unhandled Python
exception escaping the function. -/
inductive MaxSpeakersOutcome where
  | ok (r : MaxSpeakersResult)
  | invalid (max_speakers : Int) (error : String)
  | exn (e : String)
deriving DecidableEq, Repr

/-- Model of `ElectricalCalculator.max_speakers_for_transformer`.  The division
`(transformer_watts - actual_load) / transformer_watts` is unguarded in the
source; `transformer_watts = 0` raises `ZeroDivisionError`, modelled as the
`exn` outcome. -/
def maxSpeakersForTransformer (transformer_watts speaker_watts : Int)
    (headroom_percent : ℚ := 20) : MaxSpeakersOutcome :=
  if speaker_watts ≤ 0 then .invalid 0 "Speaker wattage must be positive"
  else
    let usable_watts := (transformer_watts : ℚ) * (1 - headroom_percent / 100)
    let max_speakers := pyTrunc (usable_watts / (speaker_watts : ℚ))
    let actual_load := max_speakers * speaker_watts
    if transformer_watts = 0 then .exn "ZeroDivisionError"
    else
      let actual_headroom :=
        ((transformer_watts - actual_load : ℚ) / (transformer_watts : ℚ)) * 100
      .ok ⟨max_speakers, speaker_watts, actual_load, transformer_watts,
        pyRound actual_headroom 1,
        "Maximum " ++ toString max_speakers ++ " speakers at " ++ toString speaker_watts ++
          "W each (" ++ toString actual_load ++ "W total, " ++ ratFix actual_headroom 1 ++
          "% headroom)"⟩

/-- The dict returned by `ElectricalCalculator.process_calculation`. -/
inductive CalcOutcome where
  | compat (compatible : Bool) (total_load capacity : Int) (headroom_percent : ℚ)
      (message : String) (speakers : List Int)
  | imped (total_impedance : ℚ) (connection : String) (speakers : List ℚ) (message : String)
  | power (total_power : Int) (speakers : List Int) (message : String)
  | err (error : String)
deriving DecidableEq, Repr

/-- Model of `ElectricalCalculator.process_calculation`: compatibility check, then
impedance, then power sum, else a tagged error.  (No inner call can raise,
so the `except` clause of the source is unreachable here.) -/
def processCalculation (p : CalculationParams) : CalcOutcome :=
  match p.speakers, p.transformer_watts with
  | some sp, some tw =>
    let total := calculateTotalPower sp
    let r := verify70vCompatibility total tw
    .compat r.compatible r.total_load r.capacity r.headroom_percent r.message sp
  | _, _ =>
    match p.impedances, p.connection with
    | some im, some co =>
      let r := calculateImpedance im co
      .imped r.total_impedance r.connection r.speakers r.message
    | _, _ =>
      match p.speakers with
      | some sp =>
        .power (calculateTotalPower sp) sp
          ("Total power: " ++ toString (calculateTotalPower sp) ++ "W")
      | none => .err "Could not determine calculation type from parameters"

example : (verify70vCompatibility 120 150).compatible = true := by decide
example : (verify70vCompatibility 120 150).headroom_percent = 20 := by with_unfolding_all decide
example : (verify70vCompatibility 160 150).compatible = false := by decide
example : (calculateImpedance [8, 8, 8] "parallel").total_impedance = 267 / 100 := by with_unfolding_all decide
example : (calculateImpedance [8, 8] "series").total_impedance = 16 := by with_unfolding_all decide
example : (recommendTransformer 120).recommended_watts = 150 := by with_unfolding_all decide

/-- Stable insertion of `a` into a list under a boolean `le`. -/
def insertLe {α : Type} (le : α → α → Bool) (a : α) : List α → List α
  | [] => [a]
  | b :: t => if le a b then a :: b :: t else b :: insertLe le a t

/-- Stable sort (SQL `ORDER BY` semantics) by a boolean `le`. -/
def sortByLe {α : Type} (le : α → α → Bool) : List α → List α
  | [] => []
  | a :: t => insertLe le a (sortByLe le t)

/-! ## Hybrid retriever (src/src/rag/retrieval.py)

The catalog store is an external capability (PostgreSQL + pgvector); its
relational semantics — filter, sort, limit — is modelled concretely over
the row list, and its vector-distance operator `<=>` is the `cosDist`
parameter of the environment. -/

/-- Model of `HybridRetriever._row_to_result`. -/
def toResult (p : Product) : RetrievalResult :=
  ⟨p.model_name, p.category, p.series, p.specs, p.ai_summary, 0, p.pdf_source⟩

/-- WHERE clause of `_sql_only_search`: `min_watts`, `max_watts`,
`voltage_type` and `category` — the source builds no clause for `series`
on this path (unlike `_hybrid_search`).  A SQL `NULL` column never
satisfies a comparison. -/
def sqlOnlyPred (f : Filters) (p : Product) : Bool :=
  (match f.min_watts with
   | none => true
   | some m => match p.watts_int with | none => false | some w => decide (m ≤ w)) &&
  (match f.max_watts with
   | none => true
   | some m => match p.watts_int with | none => false | some w => decide (w ≤ m)) &&
  (match f.voltage_type with
   | none => true
   | some v => p.voltage_type = some v) &&
  (match f.category with
   | none => true
   | some c => p.category = some c)

/-- WHERE clause of `_hybrid_search`: `embedding IS NOT NULL` plus all five
filters, `series` included. -/
def hybridPred (f : Filters) (p : Product) : Bool :=
  p.embedding.isSome &&
  (match f.min_watts with
   | none => true
   | some m => match p.watts_int with | none => false | some w => decide (m ≤ w)) &&
  (match f.max_watts with
   | none => true
   | some m => match p.watts_int with | none => false | some w => decide (w ≤ m)) &&
  (match f.voltage_type with
   | none => true
   | some v => p.voltage_type = some v) &&
  (match f.category with
   | none => true
   | some c => p.category = some c) &&
  (match f.series with
   | none => true
   | some s => p.series = some s)

/-- Model of `HybridRetriever._sql_only_search`: filter, `ORDER BY model_name`,
`LIMIT`. -/
def sqlOnlySearch (catalog : List Product) (f : Filters) (limit : Nat) :
    List RetrievalResult :=
  ((sortByLe (fun a b => decide (a.model_name ≤ b.model_name))
      (catalog.filter (sqlOnlyPred f))).take limit).map toResult

/-- Model of `HybridRetriever._hybrid_search`: filter, `ORDER BY embedding <=> q`,
`LIMIT`, similarity `1 - (embedding <=> q)`. -/
def hybridSearch (cosDist : List ℚ → List ℚ → ℚ) (qe : List ℚ)
    (catalog : List Product) (f : Filters) (limit : Nat) : List RetrievalResult :=
  let rows := catalog.filter (hybridPred f)
  let sorted := sortByLe (fun a b =>
    decide (cosDist qe (a.embedding.getD []) ≤ cosDist qe (b.embedding.getD []))) rows
  (sorted.take limit).map (fun p =>
    { toResult p with similarity_score := 1 - cosDist qe (p.embedding.getD []) })

/-- Model of `HybridRetriever.semantic_search`.  `limit or self.final_limit` is
Python truthiness, so an explicit `0` also falls back to the default 10.
A failed embedding degrades to `_sql_only_search`. -/
def semanticSearch (env : Env) (query : String) (f : Filters)
    (limitArg : Option Nat) : List RetrievalResult × List Effect :=
  let limit :=
    match limitArg with
    | none => 10
    | some 0 => 10
    | some n => n
  match env.embed query with
  | none => (sqlOnlySearch env.catalog f limit, [.embedCall, .dbCall])
  | some v => (hybridSearch env.cosDist v env.catalog f limit, [.embedCall, .dbCall])

/-- Model of `HybridRetriever.direct_lookup`: case-insensitive exact match first,
then a case-insensitive substring match ordered by `model_name`, first row
wins. -/
def directLookup (env : Env) (model_name : String) :
    Option RetrievalResult × List Effect :=
  match env.catalog.find? (fun p => upperStr p.model_name = upperStr model_name) with
  | some p => (some (toResult p), [.dbCall])
  | none =>
    match (sortByLe (fun a b => decide (a.model_name ≤ b.model_name))
        (env.catalog.filter (fun p =>
          containsSub (upperStr p.model_name) (upperStr model_name)))).head? with
    | some p => (some (toResult p), [.dbCall, .dbCall])
    | none => (none, [.dbCall, .dbCall])

/-! ## Answer generator (src/src/rag/generator.py) -/

/-- One row of a `spec_mappings` table: source key, display label, unit,
normalized citation field. -/
structure SpecMapping where
  key : String
  label : String
  unit : String
  norm : String

/-- Model of `spec_mappings` of `generate_direct_answer` / `_format_products_for_llm`. -/
def specMappings : List SpecMapping :=
  [ ⟨"power_watts", "Power", "W", "power_watts"⟩,
    ⟨"Power Handling (Long-term)", "Power", "W", "power_watts"⟩,
    ⟨"freq_min_hz", "Freq Min", "Hz", "freq_min_hz"⟩,
    ⟨"freq_max_hz", "Freq Max", "Hz", "freq_max_hz"⟩,
    ⟨"Freq Response (-3 dB) Freq Range (-10 dB)", "Freq Response", "", "freq_response"⟩,
    ⟨"impedance_ohms", "Impedance", "Ω", "impedance_ohms"⟩,
    ⟨"Nominal Impedance", "Impedance", "Ω", "impedance_ohms"⟩,
    ⟨"sensitivity_db", "Sensitivity", "dB", "sensitivity_db"⟩,
    ⟨"Sensitivity (SPL/1W@1m)", "Sensitivity", "dB", "sensitivity_db"⟩,
    ⟨"coverage", "Coverage", "", "coverage"⟩,
    ⟨"Coverage (H × V, or Conical) 1 kHz - 4 kHz Average", "Coverage", "", "coverage"⟩,
    ⟨"voltage_type", "Voltage", "", "voltage_type"⟩,
    ⟨"driver_components", "Drivers", "", "driver_components"⟩,
    ⟨"Driver Components", "Drivers", "", "driver_components"⟩,
    ⟨"weight_kg", "Weight", "kg", "weight_kg"⟩,
    ⟨"color_options", "Colors", "", "color_options"⟩,
    ⟨"environmental", "Environmental", "", "environmental"⟩ ]

/-- Model of `spec_mappings` of `_fallback_answer` (a shorter table: it stops at
`Driver Components`). -/
def fallbackSpecMappings : List SpecMapping :=
  specMappings.take 14

/-- Rendering of a spec value into answer text (`str` interpolation). -/
def pvShow : PyVal → String
  | .pstr s => s
  | .pint n => toString n
  | .prat q => pyFloatStr q
  | .pbool b => if b then "True" else "False"
  | .pnone => "None"

/-- Python truthiness of an optional string field. -/
def optTruthy : Option String → Bool
  | some s => s ≠ ""
  | none => false

/-- The `(mapping, value)` pairs whose key is present with a non-`None`
value (`if key in specs and specs[key] is not None`), in table order. -/
def presentSpecs (table : List SpecMapping) (specs : Specs) :
    List (SpecMapping × PyVal) :=
  table.filterMap (fun m =>
    match specs.lookup m.key with
    | some v => if v ≠ PyVal.pnone then some (m, v) else none
    | none => none)

/-- Model of `AnswerGenerator.generate_direct_answer`: deterministic template; every
surfaced spec value is simultaneously emitted as a `Citation` with the
normalized field name; confidence is fixed at 1. -/
def generateDirectAnswer (_query : String) (result : RetrievalResult) :
    GeneratedAnswer :=
  let picks := presentSpecs specMappings result.specs
  let specs_lines := picks.map (fun mv =>
    if mv.1.unit ≠ "" then "- **" ++ mv.1.label ++ "**: " ++ pvShow mv.2 ++ " " ++ mv.1.unit
    else "- **" ++ mv.1.label ++ "**: " ++ pvShow mv.2)
  let citations := picks.map (fun mv =>
    Citation.mk result.model_name mv.1.norm mv.2 result.pdf_source)
  let specs_text :=
    if specs_lines.isEmpty then "No specifications available"
    else String.intercalate "\n" specs_lines
  let src :=
    match result.pdf_source with
    | some s => if s ≠ "" then s else "Bose Product Catalog"
    | none => "Bose Product Catalog"
  ⟨"Based on the specifications for **" ++ result.model_name ++ "**:\n\n" ++
      specs_text ++ "\n\n*Source: " ++ src ++ "*",
    citations, 1, "direct_lookup", [result.model_name]⟩

/-- Model of `AnswerGenerator._format_products_for_llm` (top five, truthy values). -/
def formatProductsForLlm (results : List RetrievalResult) : String :=
  let blocks := (results.take 5).enum.map (fun ir =>
    let r := ir.2
    let head := "\n### Product " ++ toString (ir.1 + 1) ++ ": " ++ r.model_name
    let catLine := match r.category with
      | some c => if c ≠ "" then ["  Category: " ++ c] else []
      | none => []
    let serLine := match r.series with
      | some c => if c ≠ "" then ["  Series: " ++ c] else []
      | none => []
    let specLines := (specMappings.filterMap (fun m =>
      match r.specs.lookup m.key with
      | some v =>
        if pvTruthy v then
          some ("  " ++ m.label ++ ": " ++ pvShow v ++
            (if m.unit ≠ "" then " " ++ m.unit else ""))
        else none
      | none => none))
    let sumLine := match r.ai_summary with
      | some s => if s ≠ "" then ["  Summary: " ++ s] else []
      | none => []
    [head] ++ catLine ++ serLine ++ specLines ++ sumLine)
  String.intercalate "\n" blocks.flatten

/-- Model of `GENERATION_PROMPT.format(query=..., product_data=...)`. -/
def generationPrompt (query : String) (results : List RetrievalResult) : String :=
  "You are a Bose professional audio product expert.\n" ++
  "You are a technical support interface. You are prohibited from discussing commercial terms, discounts, or stock levels.\n" ++
  "Answer the user\x27s question using ONLY the product data provided below.\n" ++
  "Do NOT make up any specifications or information not in the data.\n" ++
  "Be concise and factual.\n" ++
  "If the answer is not in the data, say \"I couldn\x27t find that information in the provided product data.\"\n\n" ++
  "User Question: " ++ query ++ "\n\n" ++
  "Product Data:\n" ++ formatProductsForLlm results ++ "\n\n" ++
  "Instructions:\n" ++
  "1. Answer the question directly\n" ++
  "2. Include specific values from the data\n" ++
  "3. Mention model names when relevant\n" ++
  "4. Keep answer under 150 words\n\n" ++
  "Answer:"

/-- Citations for one candidate on the generative path: the three key spec
fields, when present (`if key in result.specs`). -/
def keyCitations (r : RetrievalResult) : List Citation :=
  ["power_watts", "voltage_type", "category"].filterMap (fun k =>
    (r.specs.lookup k).map (fun v => Citation.mk r.model_name k v r.pdf_source))

/-- Per-candidate citations of `_fallback_answer` (spec present and not
`None`, over the shorter mapping table). -/
def fallbackCitations (r : RetrievalResult) : List Citation :=
  (presentSpecs fallbackSpecMappings r.specs).map (fun mv =>
    Citation.mk r.model_name mv.1.norm mv.2 r.pdf_source)

/-- Model of `AnswerGenerator._fallback_answer`: deterministic concatenation of the
top five candidates with citations, confidence 0.7. -/
def fallbackAnswer (results : List RetrievalResult) : GeneratedAnswer :=
  let top := results.take 5
  let lines := (top.map (fun r =>
    let head := "\n**" ++ r.model_name ++ "**" ++
      (match r.category with
       | some c => if c ≠ "" then " (" ++ c ++ ")" else ""
       | none => "")
    let specLines := (presentSpecs fallbackSpecMappings r.specs).map (fun mv =>
      "- " ++ mv.1.label ++ ": " ++ pvShow mv.2 ++
        (if mv.1.unit ≠ "" then " " ++ mv.1.unit else ""))
    let sumLine := match r.ai_summary with
      | some s => if s ≠ "" then ["- Summary: " ++ s] else []
      | none => []
    [head] ++ specLines ++ sumLine)).flatten
  let citations := (top.map fallbackCitations).flatten
  let products_used := top.map (fun r => r.model_name)
  ⟨pyStripS (String.intercalate "\n" lines), citations, 7 / 10, "semantic_search",
    products_used⟩

/-- Model of `AnswerGenerator.generate_search_answer`: one completion call; on
success, candidates whose model name occurs (case-insensitively) in the
generated text contribute their key specs as citations; if none occurs,
`products_used` is set to all candidates (the `citations` list stays as
built); confidence is `min(avg_similarity + 0.2, 1.0)`.  A transport
error or non-200 status falls back to `_fallback_answer`. -/
def generateSearchAnswer (env : Env) (query : String)
    (results : List RetrievalResult) : GeneratedAnswer × List Effect :=
  if results.isEmpty then
    (⟨"I couldn\x27t find any relevant products to answer that query.", [], 0,
        "semantic_search", []⟩, [])
  else
    let prompt := generationPrompt query results
    match env.llm prompt with
    | none => (fallbackAnswer results, [.llmCall])
    | some resp =>
      if resp.status ≠ 200 then (fallbackAnswer results, [.llmCall])
      else
        let answer_text := pyStripS resp.response
        let matched := results.filter (fun r =>
          containsSub (lowerStr answer_text) (lowerStr r.model_name))
        let citations := (matched.map keyCitations).flatten
        let mentioned := matched.map (fun r => r.model_name)
        let products_used :=
          if mentioned.isEmpty then results.map (fun r => r.model_name) else mentioned
        let avg := (results.map (fun r => r.similarity_score)).sum / (results.length : ℚ)
        (⟨answer_text, citations, min (avg + 2 / 10) 1, "semantic_search",
            products_used⟩, [.llmCall])

/-- Python `str.title()` (letter after a non-letter is upper-cased). -/
def titleChars : Bool → Str → Str
  | _, [] => []
  | prevAlpha, c :: t =>
    (if c.isAlpha then (if prevAlpha then c.toLower else c.toUpper) else c) ::
      titleChars c.isAlpha t

def titleStr (s : String) : String := String.mk (titleChars false s.data)

/-- Model of `AnswerGenerator.generate_calculation_answer`: deterministic rendering
of the calculator dict; a tagged error yields confidence 0, everything else
confidence 1; no branch emits citations.  (The `recommended_watts` branch of
the source is unreachable through `process_calculation`, which never returns
that dict shape.) -/
def generateCalculationAnswer (_query : String) (c : CalcOutcome) : GeneratedAnswer :=
  match c with
  | .err e =>
    ⟨"Calculation error: " ++ e, [], 0, "calculation", []⟩
  | .compat compatible total_load capacity headroom _message _speakers =>
    let mark := if compatible then "✅ Yes" else "❌ No"
    let verdict := if compatible then "compatible" else "NOT compatible"
    let tail :=
      if compatible then "The total speaker load is within the transformer\x27s capacity."
      else "The total speaker load exceeds the transformer\x27s capacity. Use a larger transformer or reduce speakers."
    ⟨"**70V Compatibility Check**\n\n" ++ mark ++ ", this configuration is " ++ verdict ++
        ".\n\n- **Total Load**: " ++ toString total_load ++ " W\n- **Transformer Capacity**: " ++
        toString capacity ++ " W\n- **Headroom**: " ++ ratFix headroom 1 ++ "%\n\n" ++ tail,
      [], 1, "calculation", []⟩
  | .imped total_impedance connection speakers _message =>
    ⟨"**Impedance Calculation**\n\n- **Connection Type**: " ++ titleStr connection ++
        "\n- **Total Impedance**: " ++ ratFix total_impedance 2 ++ " Ω\n- **Speakers**: [" ++
        String.intercalate ", " (speakers.map pyFloatStr) ++ "]",
      [], 1, "calculation", []⟩
  | .power total_power speakers _message =>
    ⟨"**Power Calculation**\n\n- **Total Power**: " ++ toString total_power ++
        " W\n- **Speakers**: [" ++ String.intercalate ", " (speakers.map toString) ++ "]",
      [], 1, "calculation", []⟩

/-! ## Query engine (src/src/rag/engine.py) -/

/-- The fixed purchase-intent response. -/
def cannedPurchase : GeneratedAnswer :=
  ⟨"I am a technical assistant. For pricing and availability, please visit [Sales Portal URL].",
    [], 0, "purchase_intent", []⟩

/-- The fixed domain-violation response. -/
def cannedDomain : GeneratedAnswer :=
  ⟨"I can only provide information on Bose Professional products.", [], 0,
    "domain_violation", []⟩

/-- Model of `QueryEngine._handle_semantic_search`. -/
def handleSemanticSearch (env : Env) (query : String) : GeneratedAnswer × List Effect :=
  let filters := extractFilters query
  let rs := semanticSearch env query filters none
  if rs.1.isEmpty then
    (⟨"I couldn\x27t find any products matching your criteria. Try broadening your search or asking about specific models.",
        [], 0, "semantic_search", []⟩, rs.2)
  else
    let ans := generateSearchAnswer env query rs.1
    (ans.1, rs.2 ++ ans.2)

/-- Model of `QueryEngine._handle_direct_lookup`: no extractable model name degrades
to semantic search; a miss yields the not-found answer. -/
def handleDirectLookup (env : Env) (query : String) : GeneratedAnswer × List Effect :=
  match extractModelName query with
  | none => handleSemanticSearch env query
  | some m =>
    let lk := directLookup env m
    match lk.1 with
    | none =>
      (⟨"Product \x27" ++ m ++ "\x27 was not found in my database. I couldn\x27t find a matching product. Please check the model name or try a search.",
          [], 0, "direct_lookup", []⟩, lk.2)
    | some r => (generateDirectAnswer query r, lk.2)

/-- Model of `QueryEngine._handle_calculation`. -/
def handleCalculation (query : String) : GeneratedAnswer × List Effect :=
  let params := extractCalculationParams query
  if params.isEmpty then
    (⟨"I couldn\x27t parse the calculation parameters. Please specify speaker wattages and/or transformer capacity.",
        [], 0, "calculation", []⟩, [])
  else
    (generateCalculationAnswer query (processCalculation params), [.calcCall])

/-- Model of `QueryEngine.query`: empty-input guard, classification, dispatch.  The
effect list records every operation on an external collaborator or the
calculator that the request performs. -/
def engineQuery (env : Env) (st : Bool) (user_query : String) :
    GeneratedAnswer × List Effect :=
  if (pyStripS user_query).isEmpty then
    (⟨"Please provide a query.", [], 0, "error", []⟩, [])
  else
    let q := pyStripS user_query
    let c := classify env st q
    match c.intent with
    | .DIRECT_LOOKUP => let r := handleDirectLookup env q; (r.1, c.fx ++ r.2)
    | .CALCULATION => let r := handleCalculation q; (r.1, c.fx ++ r.2)
    | .PURCHASE_INTENT => (cannedPurchase, c.fx)
    | .DOMAIN_VIOLATION => (cannedDomain, c.fx)
    | .SEMANTIC_SEARCH => let r := handleSemanticSearch env q; (r.1, c.fx ++ r.2)
    | .UNKNOWN =>
      (⟨"I\x27m not sure how to handle that query. Try asking about specific products or calculations.",
          [], 0, "unknown", []⟩, c.fx)

/-! ## Concrete inputs used by witnesses and counterexamples -/

/-- A minimal environment: empty catalog, failing embedding and completion
ports. -/
def env0 : Env := ⟨[], fun _ => none, fun _ => none, fun _ _ => 0, true⟩

/-- A catalog row in the FreeSpace series. -/
def seriesProduct : Product :=
  ⟨"FS2SE", some "loudspeaker", some "FreeSpace", [("power_watts", .pint 32)],
    none, none, none, some 32, some "70V"⟩

/-- Environment whose embedding port fails, holding only `seriesProduct`. -/
def envNoEmbed : Env := ⟨[seriesProduct], fun _ => none, fun _ => none, fun _ _ => 0, true⟩

/-- A filter demanding the DesignMax series. -/
def seriesFilter : Filters := ⟨none, none, none, none, some "DesignMax"⟩

/-- A retrieved DesignMax candidate with in-spec values. -/
def r7 : RetrievalResult :=
  ⟨"DM3C", some "loudspeaker", some "DesignMax",
    [("power_watts", .pint 25), ("voltage_type", .pstr "70V")], none, 0, none⟩

/-- Environment whose completion port answers 200 with text that mentions
no model name. -/
def env7 : Env :=
  ⟨[], fun _ => none, fun _ => some ⟨200, "These are compact ceiling options."⟩,
    fun _ _ => 0, true⟩

example : (semanticSearch envNoEmbed "find designmax speakers" seriesFilter none).1.map
    (fun r => r.series) = [some "FreeSpace"] := by with_unfolding_all decide

example : (generateSearchAnswer env7 "find ceiling speakers" [r7]).1.citations = [] := by
  with_unfolding_all decide

example : (classify env0 false "jbl 4x30w").intent = QueryType.DOMAIN_VIOLATION := by decide

example : (classify env0 false "price").intent = QueryType.PURCHASE_INTENT := by decide

/-- A retrieval result with one spec, for the citation-grounding witness. -/
def r0 : RetrievalResult :=
  ⟨"AM10/60", none, none, [("power_watts", PyVal.pint 60)], none, 0, none⟩

/-- The recommendation rule exactly as the claim words it — the smallest
standard size whose value is at least `total_watts * 1.2`, with no
truncation.  Written from the spec, for comparison against
`recommendTransformer`. -/
def claimRecommendedWatts (total_watts : Int) : Int :=
  match STANDARD_TRANSFORMER_SIZES.find?
      (fun (s : Int) => decide ((total_watts : ℚ) * (6 / 5) ≤ (s : ℚ))) with
  | some s => s
  | none => STANDARD_TRANSFORMER_SIZES.getLastD 0

/-! ## Helper lemmas -/

theorem specsLookup_mem {l : Specs} {k : String} {v : PyVal}
    (h : l.lookup k = some v) : v ∈ l.map Prod.snd := by
  induction l with
  | nil => exact nomatch h
  | cons a t ih =>
    rw [List.lookup] at h
    cases hkb : (k == a.1) <;> rw [hkb] at h
    · simp only [List.map_cons, List.mem_cons]
      exact Or.inr (ih h)
    · simp only [Option.some.injEq] at h
      simp [← h]

theorem presentSpecs_mem {table : List SpecMapping} {specs : Specs}
    {mv : SpecMapping × PyVal} (h : mv ∈ presentSpecs table specs) :
    mv.2 ∈ specs.map Prod.snd := by
  rcases List.mem_filterMap.mp h with ⟨m, _, hf⟩
  cases hl : specs.lookup m.key with
  | none => rw [hl] at hf; simp at hf
  | some v =>
    rw [hl] at hf
    by_cases hv : v = PyVal.pnone
    · simp [hv] at hf
    · simp only [ne_eq, hv, not_false_eq_true, if_true, Option.some.injEq] at hf
      rw [← hf]
      exact specsLookup_mem hl

theorem keyCitations_spec {r : RetrievalResult} {c : Citation}
    (h : c ∈ keyCitations r) :
    c.model_name = r.model_name ∧ c.value ∈ r.specs.map Prod.snd := by
  rcases List.mem_filterMap.mp h with ⟨k, _, hf⟩
  cases hl : r.specs.lookup k with
  | none => rw [hl] at hf; simp at hf
  | some v =>
    rw [hl] at hf
    have hc : Citation.mk r.model_name k v r.pdf_source = c := by simpa using hf
    rw [← hc]
    exact ⟨rfl, specsLookup_mem hl⟩

theorem fallbackCitations_spec {r : RetrievalResult} {c : Citation}
    (h : c ∈ fallbackCitations r) :
    c.model_name = r.model_name ∧ c.value ∈ r.specs.map Prod.snd := by
  rcases List.mem_map.mp h with ⟨mv, hmv, hc⟩
  rw [← hc]
  exact ⟨rfl, presentSpecs_mem hmv⟩

theorem fallbackAnswer_grounded {results : List RetrievalResult} {c : Citation}
    (h : c ∈ (fallbackAnswer results).citations) :
    ∃ r ∈ results, c.model_name = r.model_name ∧ c.value ∈ r.specs.map Prod.snd := by
  simp only [fallbackAnswer] at h
  rcases List.mem_flatten.mp h with ⟨cs, hcs, hc⟩
  rcases List.mem_map.mp hcs with ⟨r, hr, hrc⟩
  exact ⟨r, List.take_subset 5 results hr, by rw [← hrc] at hc; exact fallbackCitations_spec hc⟩

/-! ## Claim theorems -/

/-- C2: on every synthesis path — direct lookup, generative search (all of
its branches, the LLM fallback included), and calculation — every emitted
citation names a product of the supplied retrieval data and carries a value
present in that product\x27s `specs` mapping; the calculation path emits no
citations at all. -/
theorem citations_never_fabricated
    (query : String) (result : RetrievalResult) (env : Env)
    (results : List RetrievalResult) (co : CalcOutcome) :
    (∀ c ∈ (generateDirectAnswer query result).citations,
        c.model_name = result.model_name ∧ c.value ∈ result.specs.map Prod.snd) ∧
    (∀ c ∈ (generateSearchAnswer env query results).1.citations,
        ∃ r ∈ results, c.model_name = r.model_name ∧ c.value ∈ r.specs.map Prod.snd) ∧
    (∀ c ∈ (fallbackAnswer results).citations,
        ∃ r ∈ results, c.model_name = r.model_name ∧ c.value ∈ r.specs.map Prod.snd) ∧
    (generateCalculationAnswer query co).citations = [] := by
  refine ⟨?_, ?_, fun c hc => fallbackAnswer_grounded hc, ?_⟩
  · intro c hc
    simp only [generateDirectAnswer] at hc
    rcases List.mem_map.mp hc with ⟨mv, hmv, hcm⟩
    rw [← hcm]
    exact ⟨rfl, presentSpecs_mem hmv⟩
  · intro c hc
    unfold generateSearchAnswer at hc
    by_cases he : results.isEmpty
    · simp [he] at hc
    · simp only [he, Bool.false_eq_true, if_false] at hc
      cases hllm : env.llm (generationPrompt query results) with
      | none =>
        rw [hllm] at hc
        dsimp only at hc
        exact fallbackAnswer_grounded hc
      | some resp =>
        rw [hllm] at hc
        dsimp only at hc
        by_cases hs : resp.status = 200
        · rw [if_neg (fun hn => hn hs)] at hc
          rcases List.mem_flatten.mp hc with ⟨cs, hcs, hcc⟩
          rcases List.mem_map.mp hcs with ⟨r, hr, hrc⟩
          refine ⟨r, List.mem_of_mem_filter hr, ?_⟩
          rw [← hrc] at hcc
          exact keyCitations_spec hcc
        · rw [if_pos hs] at hc
          exact fallbackAnswer_grounded hc
  · cases co <;> rfl

/-- C1: when the stripped query matches a competitor-name guardrail
pattern, matches no purchase-intent pattern, and also matches a
calculation pattern, classification terminates at the guardrail layer with
`DOMAIN_VIOLATION` — never `CALCULATION` — whatever the environment, the
client state and the rule layers would say. -/
theorem classify_guardrail_over_calculation (env : Env) (st : Bool) (query : String)
    (hd : checkDomainViolation (pyStripS query) = true)
    (hp : checkPurchaseIntent (pyStripS query) = false)
    (_hc : matchesAny CALCULATION_PATTERNS (lowerStr (pyStripS query)).data = true) :
    (classify env st query).intent = QueryType.DOMAIN_VIOLATION ∧
    (classify env st query).intent ≠ QueryType.CALCULATION := by
  have hne : ¬((pyStripS query).isEmpty = true) := by
    intro hq
    have hqe : pyStripS query = "" := (String.isEmpty_iff (pyStripS query)).mp hq
    rw [hqe] at hd
    exact absurd hd (by decide)
  have h1 : classify env st query = ⟨.DOMAIN_VIOLATION, st, []⟩ := by
    simp [classify, hne, hp, hd]
  rw [h1]
  exact ⟨rfl, fun hco => nomatch hco⟩

/-- Witness for C1 at a concrete guardrail-plus-calculation query. -/
theorem classify_guardrail_over_calculation_witness :
    (classify env0 false "jbl 4x30w").intent = QueryType.DOMAIN_VIOLATION ∧
    (classify env0 false "jbl 4x30w").intent ≠ QueryType.CALCULATION :=
  classify_guardrail_over_calculation env0 false "jbl 4x30w" (by decide) (by decide)
    (by decide)

/-- The classification outcome does not depend on the cached-client state
(the only state the router mutates). -/
theorem classify_intent_state_irrelevant (env : Env) (query : String) (st st' : Bool) :
    (classify env st query).intent = (classify env st' query).intent := by
  unfold classify
  by_cases h0 : (pyStripS query).isEmpty = true
  · rw [if_pos h0, if_pos h0]
  · rw [if_neg h0, if_neg h0]
    dsimp only
    by_cases hP : checkPurchaseIntent (pyStripS query) = true
    · rw [if_pos hP, if_pos hP]
    · rw [if_neg hP, if_neg hP]
      by_cases hD : checkDomainViolation (pyStripS query) = true
      · rw [if_pos hD, if_pos hD]
      · rw [if_neg hD, if_neg hD]
        cases hr : ruleBasedClassify (pyStripS query) with
        | some t => rfl
        | none =>
          dsimp only
          by_cases hU : env.useLlm = true
          · rw [if_pos hU, if_pos hU]; rfl
          · rw [if_neg hU, if_neg hU]

/-- C9: classifying the same text twice, threading the router state the
first run returns into the second, yields the same intent — every layer,
the model-assisted fallback included, is a pure function of the query text
and the fixed environment. -/
theorem classify_deterministic_two_runs (env : Env) (st : Bool) (query : String) :
    (classify env st query).intent =
      (classify env (classify env st query).st query).intent :=
  classify_intent_state_irrelevant env query st _

theorem ruleBasedClassify_not_guardrail (query : String) :
    ruleBasedClassify query ≠ some .PURCHASE_INTENT ∧
    ruleBasedClassify query ≠ some .DOMAIN_VIOLATION := by
  unfold ruleBasedClassify
  refine ⟨?_, ?_⟩ <;> · dsimp only; split_ifs <;> intro hx <;> exact nomatch hx

theorem llmClassify_not_guardrail (env : Env) (st : Bool) (query : String) :
    (llmClassify env st query).1 ≠ QueryType.PURCHASE_INTENT ∧
    (llmClassify env st query).1 ≠ QueryType.DOMAIN_VIOLATION := by
  unfold llmClassify
  cases env.llm (classificationPrompt query) with
  | none => exact ⟨fun hx => (nomatch hx), fun hx => (nomatch hx)⟩
  | some r =>
    dsimp only
    refine ⟨?_, ?_⟩
    all_goals split_ifs <;> (intro hx; exact nomatch hx)

/-- A `PURCHASE_INTENT` outcome can only come from the guardrail layer:
the whole classification then was `⟨PURCHASE_INTENT, st, []⟩` — in
particular no completion call was made. -/
theorem classify_purchase_shape (env : Env) (st : Bool) (query : String)
    (h : (classify env st query).intent = QueryType.PURCHASE_INTENT) :
    classify env st query = ⟨.PURCHASE_INTENT, st, []⟩ := by
  by_cases h0 : (pyStripS query).isEmpty = true
  · have hcl : classify env st query = ⟨.UNKNOWN, st, []⟩ := by simp [classify, h0]
    rw [hcl] at h; exact nomatch h
  · by_cases hP : checkPurchaseIntent (pyStripS query) = true
    · simp [classify, h0, hP]
    · by_cases hD : checkDomainViolation (pyStripS query) = true
      · have hcl : classify env st query = ⟨.DOMAIN_VIOLATION, st, []⟩ := by
          simp [classify, h0, hP, hD]
        rw [hcl] at h; exact nomatch h
      · cases hr : ruleBasedClassify (pyStripS query) with
        | some t =>
          have hcl : classify env st query = ⟨t, st, []⟩ := by
            simp [classify, h0, hP, hD, hr]
          rw [hcl] at h
          have ht : t = QueryType.PURCHASE_INTENT := h
          exact absurd (ht ▸ hr) (ruleBasedClassify_not_guardrail _).1
        | none =>
          by_cases hU : env.useLlm = true
          · have hcl : classify env st query =
                ⟨(llmClassify env st (pyStripS query)).1,
                  (llmClassify env st (pyStripS query)).2, [.llmCall]⟩ := by
              simp [classify, h0, hP, hD, hr, hU]
            rw [hcl] at h
            exact absurd h (llmClassify_not_guardrail env st _).1
          · have hcl : classify env st query = ⟨.SEMANTIC_SEARCH, st, []⟩ := by
              simp [classify, h0, hP, hD, hr, hU]
            rw [hcl] at h; exact nomatch h

/-- Likewise for `DOMAIN_VIOLATION`. -/
theorem classify_domain_shape (env : Env) (st : Bool) (query : String)
    (h : (classify env st query).intent = QueryType.DOMAIN_VIOLATION) :
    classify env st query = ⟨.DOMAIN_VIOLATION, st, []⟩ := by
  by_cases h0 : (pyStripS query).isEmpty = true
  · have hcl : classify env st query = ⟨.UNKNOWN, st, []⟩ := by simp [classify, h0]
    rw [hcl] at h; exact nomatch h
  · by_cases hP : checkPurchaseIntent (pyStripS query) = true
    · have hcl : classify env st query = ⟨.PURCHASE_INTENT, st, []⟩ := by
        simp [classify, h0, hP]
      rw [hcl] at h; exact nomatch h
    · by_cases hD : checkDomainViolation (pyStripS query) = true
      · simp [classify, h0, hP, hD]
      · cases hr : ruleBasedClassify (pyStripS query) with
        | some t =>
          have hcl : classify env st query = ⟨t, st, []⟩ := by
            simp [classify, h0, hP, hD, hr]
          rw [hcl] at h
          have ht : t = QueryType.DOMAIN_VIOLATION := h
          exact absurd (ht ▸ hr) (ruleBasedClassify_not_guardrail _).2
        | none =>
          by_cases hU : env.useLlm = true
          · have hcl : classify env st query =
                ⟨(llmClassify env st (pyStripS query)).1,
                  (llmClassify env st (pyStripS query)).2, [.llmCall]⟩ := by
              simp [classify, h0, hP, hD, hr, hU]
            rw [hcl] at h
            exact absurd h (llmClassify_not_guardrail env st _).2
          · have hcl : classify env st query = ⟨.SEMANTIC_SEARCH, st, []⟩ := by
              simp [classify, h0, hP, hD, hr, hU]
            rw [hcl] at h; exact nomatch h

/-- Classifying the empty query yields `UNKNOWN` without touching anything. -/
theorem classify_empty (env : Env) (st : Bool) :
    classify env st "" = ⟨.UNKNOWN, st, []⟩ := by
  unfold classify
  rw [if_pos (by decide)]

/-- C8: a request whose (stripped) text classifies as `PURCHASE_INTENT` or
`DOMAIN_VIOLATION` gets exactly the fixed canned answer, and its effect
trace is empty: no catalog query, no embedding call, no completion call and
no calculator invocation happen at all. -/
theorem blocked_intents_touch_nothing (env : Env) (st : Bool) (q : String) :
    ((classify env st (pyStripS q)).intent = QueryType.PURCHASE_INTENT →
        engineQuery env st q = (cannedPurchase, [])) ∧
    ((classify env st (pyStripS q)).intent = QueryType.DOMAIN_VIOLATION →
        engineQuery env st q = (cannedDomain, [])) := by
  have hemp : (pyStripS q).isEmpty = true →
      (classify env st (pyStripS q)).intent = QueryType.UNKNOWN := by
    intro hq
    rw [(String.isEmpty_iff (pyStripS q)).mp hq, classify_empty]
  constructor <;> intro h
  · have hne : ¬((pyStripS q).isEmpty = true) := fun hq => nomatch (h.symm.trans (hemp hq))
    have hshape := classify_purchase_shape env st (pyStripS q) h
    simp [engineQuery, hne, hshape]
  · have hne : ¬((pyStripS q).isEmpty = true) := fun hq => nomatch (h.symm.trans (hemp hq))
    have hshape := classify_domain_shape env st (pyStripS q) h
    simp [engineQuery, hne, hshape]

/-- Witness for C8 at a concrete purchase-intent query. -/
theorem blocked_intents_touch_nothing_witness :
    engineQuery env0 false "price" = (cannedPurchase, []) :=
  (blocked_intents_touch_nothing env0 false "price").1 (by decide)

/-- C10: an empty or whitespace-only query yields the fixed error answer —
`query_type = "error"`, no citations, confidence 0 — with an empty effect
trace, and the router classifies such text as `UNKNOWN`. -/
theorem empty_query_short_circuits (env : Env) (st : Bool) (q : String)
    (h : pyStripS q = "") :
    engineQuery env st q = (⟨"Please provide a query.", [], 0, "error", []⟩, []) ∧
    (classify env st q).intent = QueryType.UNKNOWN := by
  have hb : (pyStripS q).isEmpty = true := by rw [h]; decide
  constructor
  · unfold engineQuery; rw [if_pos hb]
  · unfold classify; rw [if_pos hb]

/-- Witness for C10 at a whitespace-only query. -/
theorem empty_query_short_circuits_witness :
    engineQuery env0 false "   " = (⟨"Please provide a query.", [], 0, "error", []⟩, []) ∧
    (classify env0 false "   ").intent = QueryType.UNKNOWN :=
  empty_query_short_circuits env0 false "   " (by decide)

/-- Witness for C2: the direct-lookup citation for `r0`\x27s one spec is
grounded in `r0`\x27s spec values. -/
theorem citations_never_fabricated_witness :
    (Citation.mk "AM10/60" "power_watts" (PyVal.pint 60) none).model_name = r0.model_name ∧
    (Citation.mk "AM10/60" "power_watts" (PyVal.pint 60) none).value ∈
      r0.specs.map Prod.snd :=
  (citations_never_fabricated "q" r0 env0 [] (.err "x")).1
    (Citation.mk "AM10/60" "power_watts" (PyVal.pint 60) none) (by decide)

/-- C3 (evaluation at the failing input): `calculate_impedance([0,8],
parallel)` silently drops the zero and returns the numeric impedance 8 —
its own zero-ohm error message is not produced. -/
theorem impedance_zero_in_parallel_not_error :
    (calculateImpedance [0, 8] "parallel").total_impedance = 8 ∧
    (calculateImpedance [0, 8] "parallel").connection = "parallel" ∧
    (calculateImpedance [0, 8] "parallel").message ≠
      "Error: Cannot have 0Ω speaker in parallel" := by
  with_unfolding_all decide

/-- C4 (evaluation at the failing input): `max_speakers_for_transformer(0,
30)` reaches the unguarded headroom division and raises
`ZeroDivisionError` instead of returning a value or a tagged error. -/
theorem max_speakers_zero_capacity_raises :
    maxSpeakersForTransformer 0 30 20 = .exn "ZeroDivisionError" := by
  with_unfolding_all decide

/-- C5 counterexample: at a 42 W load the source recommends 50 W (the
threshold `int(42 * 1.2) = 50` is truncated), while the claim\x27s exact
rule — smallest size at or above `42 × 1.2 = 50.4` — picks 70 W. -/
theorem recommend_transformer_exact_threshold_fails :
    (recommendTransformer 42).recommended_watts = 50 ∧
    claimRecommendedWatts 42 = 70 ∧ ¬((42 : ℚ) * (6 / 5) ≤ (50 : ℚ)) := by
  with_unfolding_all decide

/-- C6 (evaluation at the failing input): with the embedding port failing
and a `series` filter set, the degraded search returns a row of a
different series — `_sql_only_search` builds no clause for `series`. -/
theorem sql_only_search_drops_series_filter :
    seriesFilter.series = some "DesignMax" ∧
    envNoEmbed.embed "find designmax speakers" = none ∧
    (semanticSearch envNoEmbed "find designmax speakers" seriesFilter none).1.map
      (fun r => r.series) = [some "FreeSpace"] := by
  refine ⟨rfl, rfl, ?_⟩
  with_unfolding_all decide

/-- C7 (evaluation at the failing input): when the generated text mentions
no candidate\x27s model name, all candidates are listed in `products_used`
but the citations list stays empty — no candidate contributes citations. -/
theorem search_answer_unmentioned_candidates_uncited :
    containsSub (lowerStr "These are compact ceiling options.") (lowerStr r7.model_name) =
      false ∧
    (r7.specs.lookup "power_watts").isSome = true ∧
    (generateSearchAnswer env7 "find ceiling speakers" [r7]).1.citations = [] ∧
    (generateSearchAnswer env7 "find ceiling speakers" [r7]).1.products_used = ["DM3C"] := by
  with_unfolding_all decide

/-- Closed form of the first-fit scan over the standard transformer
sizes. -/
theorem find_sizes_closed_form (m : Int) :
    STANDARD_TRANSFORMER_SIZES.find? (fun s => decide (m ≤ s)) =
      (if m ≤ 50 then some 50 else if m ≤ 70 then some 70
       else if m ≤ 100 then some 100 else if m ≤ 125 then some 125
       else if m ≤ 150 then some 150 else if m ≤ 200 then some 200
       else if m ≤ 250 then some 250 else if m ≤ 300 then some 300
       else if m ≤ 500 then some 500 else if m ≤ 1000 then some 1000
       else none) := by
  by_cases h1 : m ≤ 50
  · simp [STANDARD_TRANSFORMER_SIZES, List.find?, h1]
  · by_cases h2 : m ≤ 70
    · simp [STANDARD_TRANSFORMER_SIZES, List.find?, h1, h2]
    · by_cases h3 : m ≤ 100
      · simp [STANDARD_TRANSFORMER_SIZES, List.find?, h1, h2, h3]
      · by_cases h4 : m ≤ 125
        · simp [STANDARD_TRANSFORMER_SIZES, List.find?, h1, h2, h3, h4]
        · by_cases h5 : m ≤ 150
          · simp [STANDARD_TRANSFORMER_SIZES, List.find?, h1, h2, h3, h4, h5]
          · by_cases h6 : m ≤ 200
            · simp [STANDARD_TRANSFORMER_SIZES, List.find?, h1, h2, h3, h4, h5, h6]
            · by_cases h7 : m ≤ 250
              · simp [STANDARD_TRANSFORMER_SIZES, List.find?, h1, h2, h3, h4, h5, h6, h7]
              · by_cases h8 : m ≤ 300
                · simp [STANDARD_TRANSFORMER_SIZES, List.find?, h1, h2, h3, h4, h5, h6,
                    h7, h8]
                · by_cases h9 : m ≤ 500
                  · simp [STANDARD_TRANSFORMER_SIZES, List.find?, h1, h2, h3, h4, h5, h6,
                      h7, h8, h9]
                  · by_cases h10 : m ≤ 1000
                    · simp [STANDARD_TRANSFORMER_SIZES, List.find?, h1, h2, h3, h4, h5,
                        h6, h7, h8, h9, h10]
                    · simp [STANDARD_TRANSFORMER_SIZES, List.find?, h1, h2, h3, h4, h5,
                        h6, h7, h8, h9, h10]

set_option maxHeartbeats 1600000 in
/-- First-fit pick over the standard sizes: membership, minimality among
admissible sizes, and the best-effort largest size when none is
admissible. -/
theorem smallest_ge_pick (m r : Int)
    (hr : r = match STANDARD_TRANSFORMER_SIZES.find? (fun s => decide (m ≤ s)) with
              | some s => s
              | none => STANDARD_TRANSFORMER_SIZES.getLastD 0) :
    r ∈ STANDARD_TRANSFORMER_SIZES ∧
    (∀ s ∈ STANDARD_TRANSFORMER_SIZES, m ≤ s → r ≤ s) ∧
    (m ≤ r ∨ (r = 1000 ∧ ∀ s ∈ STANDARD_TRANSFORMER_SIZES, s < m)) := by
  rw [find_sizes_closed_form] at hr
  split_ifs at hr with h1 h2 h3 h4 h5 h6 h7 h8 h9 h10 <;> subst hr <;> dsimp only <;>
    refine ⟨by decide, ?_, ?_⟩ <;>
    first
      | (intro s hs hms
         simp only [STANDARD_TRANSFORMER_SIZES, List.mem_cons, List.mem_singleton,
           List.not_mem_nil, or_false] at hs
         rcases hs with rfl | rfl | rfl | rfl | rfl | rfl | rfl | rfl | rfl | rfl <;> omega)
      | exact Or.inl (by omega)
      | exact Or.inr ⟨by decide, by
          intro s hs
          simp only [STANDARD_TRANSFORMER_SIZES, List.mem_cons, List.mem_singleton,
            List.not_mem_nil, or_false] at hs
          rcases hs with rfl | rfl | rfl | rfl | rfl | rfl | rfl | rfl | rfl | rfl <;> omega⟩

/-- C5 (amended): for every load, the recommendation is the smallest
standard size at or above `int(total_watts * 1.2)` — the truncated
threshold — and the largest size (1000) when no size reaches it; in
particular `recommend_transformer(120)` recommends 150. -/
theorem recommend_transformer_characterization (tw : Int) :
    (recommendTransformer tw).recommended_watts ∈ STANDARD_TRANSFORMER_SIZES ∧
    (∀ s ∈ STANDARD_TRANSFORMER_SIZES, minRequiredWatts tw ≤ s →
        (recommendTransformer tw).recommended_watts ≤ s) ∧
    (minRequiredWatts tw ≤ (recommendTransformer tw).recommended_watts ∨
        ((recommendTransformer tw).recommended_watts = 1000 ∧
          ∀ s ∈ STANDARD_TRANSFORMER_SIZES, s < minRequiredWatts tw)) ∧
    (recommendTransformer 120).recommended_watts = 150 := by
  obtain ⟨hmem, hmin, hthr⟩ :=
    smallest_ge_pick (minRequiredWatts tw) (recommendTransformer tw).recommended_watts rfl
  exact ⟨hmem, hmin, hthr, by with_unfolding_all decide⟩

/-- Witness for C5 at the 120 W load: 150 is minimal among admissible
sizes. -/
theorem recommend_transformer_characterization_witness :
    (recommendTransformer 120).recommended_watts ≤ 150 :=
  (recommend_transformer_characterization 120).2.1 150 (by decide)
    (by with_unfolding_all decide)
